import Mathlib

/-!
Verification of the client-side session/authentication store
(`src/src/store/authStore.ts`) of the bullbearpk repository.

The store is a zustand store wrapped in the `persist` middleware with
storage key "auth-storage" and a `partialize` function selecting
`user`, `isAuthenticated` and `token`.  Every call to `set` replaces
the named fields of the in-memory state and triggers one write of the
partialized state to the storage slot (that is the behaviour of the
persist middleware: it wraps `set` and serialises after every state
change).  The four operations are `login`, `register`, `logout` and
`updateUser`; `login`/`register` are async and set `isLoading` to true
first, then either commit the session (the mock always succeeds) or,
in the catch branch, set `isLoading` back to false and rethrow.

Clock inputs (`new Date().toISOString()` and `Date.now()`) are passed
as explicit parameters `now : String` and `millis : Nat`.
-/

namespace AuthStore

/-- `riskTolerance: 'low' | 'medium' | 'high'` from the `User` interface. -/
inductive RiskTolerance
  | low
  | medium
  | high
  deriving DecidableEq, Repr

/-- The nested `investmentProfile` record of the `User` interface. -/
structure InvestmentProfile where
  totalInvested : Int
  totalReturns : Int
  riskTolerance : RiskTolerance
  preferredSectors : List String
  deriving DecidableEq, Repr

/-- The `User` interface of `authStore.ts`. -/
structure User where
  id : String
  email : String
  name : String
  avatar : Option String := none
  createdAt : String
  investmentProfile : Option InvestmentProfile := none
  deriving DecidableEq, Repr

/-- The data fields of the `AuthState` interface (the actions are modelled
as functions below). -/
structure AuthState where
  user : Option User
  isAuthenticated : Bool
  isLoading : Bool
  token : Option String
  deriving DecidableEq, Repr

/-- The initial state of `useAuthStore` (lines 34-38). -/
def initialState : AuthState :=
  { user := none, isAuthenticated := false, isLoading := false, token := none }

/-- The persisted subset of the state, as selected by the `partialize`
option (lines 120-127): `user`, `isAuthenticated` and `token` only. -/
structure PersistedState where
  user : Option User
  isAuthenticated : Bool
  token : Option String
  deriving DecidableEq, Repr

/-- The `partialize` function of the persist options. -/
def partialize (s : AuthState) : PersistedState :=
  { user := s.user, isAuthenticated := s.isAuthenticated, token := s.token }

/-- Rehydration: the persist middleware merges the stored snapshot into the
initial state (default shallow merge), so `isLoading` takes its initial
value `false` and the three persisted fields come from the snapshot. -/
def rehydrate (p : PersistedState) : AuthState :=
  { initialState with
      user := p.user, isAuthenticated := p.isAuthenticated, token := p.token }

/-- JavaScript `str.split(sep)[0]`: the characters before the first
occurrence of `sep` (the whole string if `sep` does not occur). -/
def jsSplitHead (sep : Char) : List Char → List Char
  | [] => []
  | c :: cs => if c = sep then [] else c :: jsSplitHead sep cs

/-- `email.split('@')[0]` from the login mock. -/
def localPart (email : String) : String :=
  String.mk (jsSplitHead '@' email.data)

/-- The default investment profile both mocks attach to a new user. -/
def freshProfile : InvestmentProfile :=
  { totalInvested := 0
    totalReturns := 0
    riskTolerance := RiskTolerance.medium
    preferredSectors := [] }

/-- The `mockUser` built by `login` (lines 44-55): constant id `"1"`,
name derived from the local part of the email, `createdAt` from the
clock. -/
def loginMockUser (email now : String) : User :=
  { id := "1"
    email := email
    name := localPart email
    createdAt := now
    investmentProfile := some freshProfile }

/-- The state after `login`'s success path settles: first
`set \x7b isLoading: true \x7d`, then the final `set` committing the
session (lines 40-61). -/
def loginState (s : AuthState) (email _password now : String) : AuthState :=
  let s1 : AuthState := { s with isLoading := true }
  { s1 with
      user := some (loginMockUser email now)
      isAuthenticated := true
      token := some "mock-jwt-token"
      isLoading := false }

/-- `login` as a fallible operation: the try block of the mock contains no
failing step, so the promise always resolves with the success state. -/
def login (s : AuthState) (email password now : String) :
    Except String AuthState :=
  Except.ok (loginState s email password now)

/-- The catch branch of `login` (lines 62-65): it runs after the initial
`set \x7b isLoading: true \x7d`, sets `isLoading` back to false and
rethrows the caught error unchanged. -/
def loginCatch (s : AuthState) (err : String) : AuthState × String :=
  let s1 : AuthState := { s with isLoading := true }
  ({ s1 with isLoading := false }, err)

/-- The storage writes performed by one `login` invocation on its success
path: the persist middleware serialises the partialized state after each
of the two `set` calls. -/
def loginWrites (s : AuthState) (email password now : String) :
    List PersistedState :=
  let s1 : AuthState := { s with isLoading := true }
  [partialize s1, partialize (loginState s email password now)]

/-- The storage writes performed on `login`'s failure path: one per `set`
call (the `isLoading` flip in, then out). -/
def loginCatchWrites (s : AuthState) (err : String) : List PersistedState :=
  let s1 : AuthState := { s with isLoading := true }
  [partialize s1, partialize (loginCatch s err).1]

/-- The `mockUser` built by `register` (lines 72-83): id is
`Date.now().toString()`, name is the given name, `createdAt` from the
clock. -/
def registerMockUser (name email now : String) (millis : Nat) : User :=
  { id := toString millis
    email := email
    name := name
    createdAt := now
    investmentProfile := some freshProfile }

/-- The state after `register`'s success path settles (lines 69-89),
symmetric to `login`. -/
def registerState (s : AuthState) (name email _password now : String)
    (millis : Nat) : AuthState :=
  let s1 : AuthState := { s with isLoading := true }
  { s1 with
      user := some (registerMockUser name email now millis)
      isAuthenticated := true
      token := some "mock-jwt-token"
      isLoading := false }

/-- `register` as a fallible operation: as for `login`, the mock's try
block cannot fail. -/
def register (s : AuthState) (name email password now : String)
    (millis : Nat) : Except String AuthState :=
  Except.ok (registerState s name email password now millis)

/-- The catch branch of `register` (lines 90-93), identical in shape to
`login`'s. -/
def registerCatch (s : AuthState) (err : String) : AuthState × String :=
  let s1 : AuthState := { s with isLoading := true }
  ({ s1 with isLoading := false }, err)

/-- The storage writes performed by one `register` invocation on its
success path. -/
def registerWrites (s : AuthState) (name email password now : String)
    (millis : Nat) : List PersistedState :=
  let s1 : AuthState := { s with isLoading := true }
  [partialize s1, partialize (registerState s name email password now millis)]

/-- `logout` (lines 98-105): clears the whole state in one `set`. -/
def logout (_s : AuthState) : AuthState :=
  { user := none, isAuthenticated := false, token := none, isLoading := false }

/-- A `Partial<User>` argument: `none` means the key is absent from the
patch object. -/
structure UserPatch where
  id : Option String := none
  email : Option String := none
  name : Option String := none
  avatar : Option String := none
  createdAt : Option String := none
  investmentProfile : Option InvestmentProfile := none
  deriving DecidableEq, Repr

/-- The JavaScript spread merge `\x7b ...user, ...updatedUser \x7d`: every
key present in the patch overrides the corresponding field wholesale
(`investmentProfile` is replaced, not deep-merged). -/
def mergeUser (u : User) (p : UserPatch) : User :=
  { id := p.id.getD u.id
    email := p.email.getD u.email
    name := p.name.getD u.name
    avatar := (p.avatar.map some).getD u.avatar
    createdAt := p.createdAt.getD u.createdAt
    investmentProfile := (p.investmentProfile.map some).getD u.investmentProfile }

/-- `updateUser` (lines 107-114): merges the patch into the current user
when one is present, and silently does nothing otherwise. -/
def updateUser (s : AuthState) (p : UserPatch) : AuthState :=
  match s.user with
  | some u => { s with user := some (mergeUser u p) }
  | none => s

/-- `setLoading` (lines 116-118). -/
def setLoading (s : AuthState) (loading : Bool) : AuthState :=
  { s with isLoading := loading }

/-- One completed operation of the store, with its clock inputs. -/
inductive Op
  | login (email password now : String)
  | register (name email password now : String) (millis : Nat)
  | logout
  | updateUser (p : UserPatch)
  deriving Repr

/-- The state after one operation settles. -/
def applyOp (s : AuthState) : Op → AuthState
  | Op.login email password now => loginState s email password now
  | Op.register name email password now millis =>
      registerState s name email password now millis
  | Op.logout => logout s
  | Op.updateUser p => updateUser s p

/-- The state after a sequence of operations settles, in order. -/
def runOps (s : AuthState) (ops : List Op) : AuthState :=
  ops.foldl applyOp s

/-- The authentication invariant: `isAuthenticated` agrees with the
presence of both `user` and `token`. -/
def AuthInvariant (s : AuthState) : Prop :=
  s.isAuthenticated = (s.user.isSome && s.token.isSome)

/-- A sample authenticated state, used as a concrete input below. -/
def sampleAuthed : AuthState :=
  loginState initialState "a@x.com" "secret1" "2026-01-01T00:00:00.000Z"

/- ### Helper lemmas -/

theorem applyOp_invariant (s : AuthState) (op : Op) (h : AuthInvariant s) :
    AuthInvariant (applyOp s op) := by
  cases op with
  | login email password now =>
      simp [applyOp, loginState, AuthInvariant]
  | register name email password now millis =>
      simp [applyOp, registerState, AuthInvariant]
  | logout =>
      simp [applyOp, logout, AuthInvariant]
  | updateUser p =>
      unfold applyOp updateUser
      cases hu : s.user with
      | none => exact h
      | some u =>
          unfold AuthInvariant at h ⊢
          simp only [hu, Option.isSome_some, Bool.true_and] at h ⊢
          exact h

theorem runOps_invariant (ops : List Op) (s : AuthState)
    (h : AuthInvariant s) : AuthInvariant (runOps s ops) := by
  induction ops generalizing s with
  | nil => exact h
  | cons op rest ih =>
      have hstep := applyOp_invariant s op h
      simpa [runOps, List.foldl] using ih (applyOp s op) hstep

theorem jsSplitHead_append (sep : Char) (xs ys : List Char)
    (h : sep ∉ xs) : jsSplitHead sep (xs ++ sep :: ys) = xs := by
  induction xs with
  | nil => simp [jsSplitHead]
  | cons c cs ih =>
      have hc : c ≠ sep := fun hcs => h (by simp [hcs])
      have hcs : sep ∉ cs := fun hmem => h (List.mem_cons_of_mem c hmem)
      simp [jsSplitHead, hc, ih hcs]

/- ### Claim theorems -/

/-- C1: every state reachable from the initial state (user absent,
isAuthenticated false, token absent) by a sequence of login, register,
logout, updateUser operations satisfies: isAuthenticated holds iff the
user is present and the token is present. -/
theorem auth_invariant_reachable (ops : List Op) :
    AuthInvariant (runOps initialState ops) :=
  runOps_invariant ops initialState rfl

/-- C2: on login's failure path the prior user, isAuthenticated and token
are unchanged, isLoading ends false and the caught error is rethrown to
the caller unchanged (no retry); and isLoading is false immediately
after login, register or logout settles, on success and failure paths
alike. -/
theorem operations_settle_loading (s : AuthState)
    (err email password nm now : String) (millis : Nat) :
    (loginCatch s err).1.user = s.user
    ∧ (loginCatch s err).1.isAuthenticated = s.isAuthenticated
    ∧ (loginCatch s err).1.token = s.token
    ∧ (loginCatch s err).1.isLoading = false
    ∧ (loginCatch s err).2 = err
    ∧ (loginState s email password now).isLoading = false
    ∧ (registerState s nm email password now millis).isLoading = false
    ∧ (registerCatch s err).1.user = s.user
    ∧ (registerCatch s err).1.isAuthenticated = s.isAuthenticated
    ∧ (registerCatch s err).1.token = s.token
    ∧ (registerCatch s err).1.isLoading = false
    ∧ (registerCatch s err).2 = err
    ∧ (logout s).isLoading = false :=
  ⟨rfl, rfl, rfl, rfl, rfl, rfl, rfl, rfl, rfl, rfl, rfl, rfl, rfl⟩

/-- C3 counterexample: a successful login performs two storage writes
(one per `set` call), not exactly one: the persist middleware also
serialises after the initial `set \x7b isLoading: true \x7d`. -/
theorem login_single_write_refuted :
    (loginWrites initialState "a@x.com" "secret1"
      "2026-01-01T00:00:00.000Z").length ≠ 1 := by
  decide

/-- C3 amended: every login or register invocation performs exactly two
storage writes, one per `set` call; the first write stores the prior
persisted subset unchanged (isLoading is not persisted), and on the
failure path both writes store the prior persisted subset unchanged, so
the slot content changes only on success, and then only once. -/
theorem login_register_write_counts (s : AuthState)
    (email password nm now err : String) (millis : Nat) :
    (loginWrites s email password now).length = 2
    ∧ (loginWrites s email password now).head? = some (partialize s)
    ∧ (registerWrites s nm email password now millis).length = 2
    ∧ (registerWrites s nm email password now millis).head?
        = some (partialize s)
    ∧ loginCatchWrites s err = [partialize s, partialize s] :=
  ⟨rfl, rfl, rfl, rfl, rfl⟩

/-- C4 counterexample: updateUser performs an unguarded shallow merge, so
a patch that carries an `id` field overwrites the user's id: from the
sample authenticated state (id "1"), patching with id "2" yields a user
whose id is "2". -/
theorem updateUser_id_mutable :
    Option.map User.id
      (updateUser sampleAuthed { id := some "2" }).user = some "2"
    ∧ Option.map User.id sampleAuthed.user = some "1" :=
  ⟨rfl, rfl⟩

/-- C4 amended: for every state and every patch that does not itself carry
an `id` or `createdAt` field, the user's id and createdAt after
updateUser equal their values before the call. -/
theorem updateUser_preserves_id_createdAt (s : AuthState) (p : UserPatch)
    (hid : p.id = none) (hca : p.createdAt = none) :
    Option.map User.id (updateUser s p).user = Option.map User.id s.user
    ∧ Option.map User.createdAt (updateUser s p).user
        = Option.map User.createdAt s.user := by
  cases hu : s.user with
  | none => constructor <;> simp [updateUser, hu]
  | some u => constructor <;> simp [updateUser, hu, mergeUser, hid, hca]

/-- C4 witness: the amended theorem applied to the sample authenticated
state and a name-only patch. -/
theorem updateUser_preserves_id_createdAt_witness :
    Option.map User.id
        (updateUser sampleAuthed ({ name := some "Al" } : UserPatch)).user
      = Option.map User.id sampleAuthed.user
    ∧ Option.map User.createdAt
        (updateUser sampleAuthed ({ name := some "Al" } : UserPatch)).user
      = Option.map User.createdAt sampleAuthed.user :=
  updateUser_preserves_id_createdAt sampleAuthed { name := some "Al" } rfl rfl

/-- C5 counterexample: register ids are not freshly generated: the id is
`Date.now().toString()`, so two register calls in the same millisecond
(here millis = 5) produce the same id "5". -/
theorem register_id_not_fresh :
    Option.map User.id
      (registerState initialState "Sam" "s@x.com" "pw" "t0" 5).user
      = some "5"
    ∧ Option.map User.id
        (registerState
          (registerState initialState "Sam" "s@x.com" "pw" "t0" 5)
          "Pat" "p@x.com" "pw" "t1" 5).user
      = some "5" :=
  ⟨rfl, rfl⟩

/-- C5 amended: every successful register call sets the new user's id to
the decimal string of the current millisecond clock and createdAt to
the current time, and establishes the session identically to login
(isAuthenticated, token and isLoading agree with login's resulting
state); ids repeat whenever the millisecond clock repeats, so
distinctness from previously produced ids is not guaranteed. -/
theorem register_establishes_session (s : AuthState)
    (nm email password now : String) (millis : Nat) :
    (registerState s nm email password now millis).user
      = some (registerMockUser nm email now millis)
    ∧ (registerMockUser nm email now millis).id = toString millis
    ∧ (registerMockUser nm email now millis).createdAt = now
    ∧ (registerState s nm email password now millis).isAuthenticated
        = (loginState s email password now).isAuthenticated
    ∧ (registerState s nm email password now millis).token
        = (loginState s email password now).token
    ∧ (registerState s nm email password now millis).isLoading
        = (loginState s email password now).isLoading :=
  ⟨rfl, rfl, rfl, rfl, rfl, rfl⟩

/-- C6: rehydrating from the partialized snapshot of any state restores
user, isAuthenticated and token exactly, and isLoading is false
regardless of its value at the time of persistence. -/
theorem persist_roundtrip (s : AuthState) :
    (rehydrate (partialize s)).user = s.user
    ∧ (rehydrate (partialize s)).isAuthenticated = s.isAuthenticated
    ∧ (rehydrate (partialize s)).token = s.token
    ∧ (rehydrate (partialize s)).isLoading = false :=
  ⟨rfl, rfl, rfl, rfl⟩

/-- C7: after any successful login the user's email is the given email,
isAuthenticated is true, the token is a non-empty string, and the
user's name is the part of the email before the first '@' (whenever the
email decomposes as local ++ '@' :: rest with no '@' in local). -/
theorem login_success_shape (s : AuthState) (email password now : String) :
    (loginState s email password now).user = some (loginMockUser email now)
    ∧ (loginMockUser email now).email = email
    ∧ (loginState s email password now).isAuthenticated = true
    ∧ (∃ t, (loginState s email password now).token = some t ∧ t ≠ "")
    ∧ (∀ loc rest : List Char, '@' ∉ loc → email.data = loc ++ '@' :: rest →
        (loginMockUser email now).name = String.mk loc) := by
  refine ⟨rfl, rfl, rfl, ⟨"mock-jwt-token", rfl, by decide⟩, ?_⟩
  intro loc rest hloc hdecomp
  show localPart email = String.mk loc
  unfold localPart
  rw [hdecomp, jsSplitHead_append '@' loc rest hloc]

/-- C7 witness: the success shape at the concrete call of Scenario A,
login("a@x.com", "secret1"): the derived name is "a". -/
theorem login_success_shape_witness :
    (loginMockUser "a@x.com" "2026-01-01T00:00:00.000Z").name
      = String.mk ['a'] :=
  (login_success_shape initialState "a@x.com" "secret1"
      "2026-01-01T00:00:00.000Z").2.2.2.2
    ['a'] ['x', '.', 'c', 'o', 'm'] (by decide) (by decide)

/-- C8: after logout the state has isAuthenticated false and user and
token absent, from every prior state; logout is a total function (it
always succeeds) and is idempotent. -/
theorem logout_clears_idempotent (s : AuthState) :
    (logout s).user = none
    ∧ (logout s).isAuthenticated = false
    ∧ (logout s).token = none
    ∧ logout (logout s) = logout s :=
  ⟨rfl, rfl, rfl, rfl⟩

/-- C9: updateUser on an anonymous state (user absent) is a no-op: the
state is returned observably identical, and no error is raised (the
function is total). -/
theorem updateUser_anonymous_noop (s : AuthState) (p : UserPatch)
    (h : s.user = none) : updateUser s p = s := by
  unfold updateUser
  rw [h]

/-- C9 witness: updateUser on the initial (anonymous) state with a
name-only patch returns the state unchanged. -/
theorem updateUser_anonymous_noop_witness :
    updateUser initialState ({ name := some "x" } : UserPatch)
      = initialState :=
  updateUser_anonymous_noop initialState { name := some "x" } rfl

/-- C10: the mock login never fails and its outcome is independent of the
password: from any prior state, two login calls with the same email and
clock but different passwords both resolve successfully to identical
states, so the AuthError branch is unreachable. -/
theorem login_never_fails_password_independent (s : AuthState)
    (email pw1 pw2 now : String) :
    login s email pw1 now = login s email pw2 now
    ∧ login s email pw1 now = Except.ok (loginState s email pw1 now) :=
  ⟨rfl, rfl⟩

end AuthStore
